import Mathlib

/-!
Verification development for the ein-agent repository.

Part 1 embeds the durable human-in-the-loop investigation state machine
(`ein_agent_worker/workflows/human_in_loop.py`, class `HumanInLoopWorkflow`)
as an executable labelled transition system.  Signal handlers are pure
functions on the workflow state; the cooperative run loop is split at its
`await` suspension points into run-loop labels, so that an arbitrary
interleaving of signal deliveries with run-loop progress is a list of labels
folded over the state.

Part 2 embeds the client side (`ein_agent_cli`): the alert filter
(`alertmanager.py`), the context-switch resolution (`slash_commands/switch_context.py`),
the enrichment-RCA guard (`slash_commands/workflows.py`), and the orchestrator's
status dispatch and result update (`orchestrators/human_in_the_loop.py`).
The container classes of `ein_agent_cli/models.py` (`LocalContext`, `Context`,
`SessionState`) are not among the provided sources; those containers are
modelled from the spec, as marked in their doc comments.
-/

namespace EinAgent

/-- Lifecycle states of `HumanInLoopWorkflow.state`
(`"pending" / "executing" / "awaiting_input" / "completed" / "failed"`). -/
inductive Lifecycle
  | pending
  | executing
  | awaitingInput
  | completed
  | failed
deriving DecidableEq, Repr

/-- A user action as delivered by the CLI (`UserAction.model_dump()` in
`ein_agent_cli/models.py`): an `action_type` string and a `content` string.
The `metadata` dict is never read by the workflow and is omitted. -/
structure Action where
  action_type : String
  content : String
deriving DecidableEq, Repr

/-- Which of the three parse branches of `_execute_with_human_loop`
handled the agent reply (lines 288, 329 and 353 of `human_in_loop.py`). -/
inductive Branch
  | needHumanInput
  | otherJson
  | notJson
deriving DecidableEq, Repr

/-- The parse of one agent reply: a well-formed `NEED_HUMAN_INPUT` JSON object
(carrying the raw text plus the `question` / `suggested_tools` /
`findings_so_far` fields, with `dict.get` defaults), some other JSON value,
or text that raises `json.JSONDecodeError`. -/
inductive AgentReply
  | needHumanInput (raw : String) (question : Option String)
      (tools : List String) (findings : List String)
  | otherJson (raw : String)
  | notJson (raw : String)
deriving DecidableEq, Repr

/-- The outcome of one `Runner.run` invocation: an exception (caught at line
259 of `human_in_loop.py`, carrying the exception type name and message), or a
reply string whose parse is recorded. -/
inductive AgentOutcome
  | failure (error_type : String) (error_msg : String)
  | reply (r : AgentReply)
deriving DecidableEq, Repr

/-- Control position of the workflow's single cooperative run coroutine,
split at its suspension points:
`waitingStart` = inside `workflow.wait_condition(lambda: self.execution_started)`;
`discovering` = past the initial wait, before the MCP discovery activity
returns; `loopTop i` = at the top of iteration `i` of the `for iteration in
range(max_iterations)` loop (about to check `should_end` and call the agent);
`awaitingAction i b raw` = inside `await self.action_received.wait()` in parse
branch `b` of iteration `i`, with `raw` the agent response of that iteration;
`finished r` = `run` returned `r`; `crashed m` = `run` re-raised an unhandled
exception with message `m`. -/
inductive RunPhase
  | waitingStart
  | discovering
  | loopTop (iter : Nat)
  | awaitingAction (iter : Nat) (b : Branch) (raw : String)
  | finished (result : String)
  | crashed (msg : String)
deriving DecidableEq, Repr

/-- The full instance state of `HumanInLoopWorkflow`: the fields initialized in
`__init__`, plus the run coroutine's control position (`phase`), its local
`conversation_history` list and its local `agent_response` binding
(`lastAgentResponse`, `none` while the Python local is unbound), plus two
ghost counters: `startsPassed` counts how many times the run loop passed its
initial `wait_condition`, `convBegun` counts how many times the agent
conversation was begun (initial transcript built). -/
structure WFState where
  state : Lifecycle
  user_prompt : Option String
  current_question : Option String
  suggested_mcp_tools : List String
  findings : List String
  final_report : Option String
  error_message : Option String
  pending_action : Option Action
  action_received : Bool
  should_end : Bool
  execution_started : Bool
  phase : RunPhase
  conversation_history : List String
  lastAgentResponse : Option String
  startsPassed : Nat
  convBegun : Nat
deriving DecidableEq, Repr

/-- `HumanInLoopWorkflow.__init__`. -/
def initState : WFState where
  state := .pending
  user_prompt := none
  current_question := none
  suggested_mcp_tools := []
  findings := []
  final_report := none
  error_message := none
  pending_action := none
  action_received := false
  should_end := false
  execution_started := false
  phase := .waitingStart
  conversation_history := []
  lastAgentResponse := none
  startsPassed := 0
  convBegun := 0

/-- Signal handler `start_execution` (lines 91-103): sets `user_prompt` from
`execution_input.get("user_prompt", "")` and sets `execution_started`.
The payload is the optional `user_prompt` entry of the delivered dict. -/
def start_execution (execution_input : Option String) (s : WFState) : WFState :=
  { s with user_prompt := some (execution_input.getD "")
           execution_started := true }

/-- Signal handler `provide_action` (lines 109-119): stores the action and
sets the `action_received` event. -/
def provide_action (action : Action) (s : WFState) : WFState :=
  { s with pending_action := some action
           action_received := true }

/-- Signal handler `end_workflow` (lines 137-143): sets `should_end` and sets
the `action_received` event to wake a waiting loop. -/
def end_workflow (s : WFState) : WFState :=
  { s with should_end := true
           action_received := true }

/-- The status payload returned by the `get_status` query and consumed by the
CLI as `WorkflowStatus` (`ein_agent_cli/models.py`). -/
structure WorkflowStatus where
  state : Lifecycle
  current_question : Option String
  suggested_mcp_tools : List String
  findings : List String
  final_report : Option String
  error_message : Option String
deriving DecidableEq, Repr

/-- Query handler `get_status` (lines 121-135): a side-effect-free read. -/
def get_status (s : WFState) : WorkflowStatus where
  state := s.state
  current_question := s.current_question
  suggested_mcp_tools := s.suggested_mcp_tools
  findings := s.findings
  final_report := s.final_report
  error_message := s.error_message

/-- `max_iterations = 50` (line 244). -/
def max_iterations : Nat := 50

/-- The synthetic system message appended to the transcript when a
`Runner.run` invocation raises (lines 269-277). -/
def errorPrompt (error_type error_msg : String) : String :=
  "\nSYSTEM ERROR: An MCP tool execution failed with the following error:\n\n" ++
  "Error Type: " ++ error_type ++ "\nError Message: " ++ error_msg ++
  "\n\nYou must respond using the NEED_HUMAN_INPUT format to ask the user for help.\n" ++
  "Explain what failed and provide options for how to proceed.\n"

/-- The result string built at lines 386-387 when the turn budget is
exhausted, summarizing the last agent output. -/
def maxIterMessage (lastOutput : String) : String :=
  "Task incomplete after " ++ toString max_iterations ++
  " iterations. Last output:\n" ++ lastOutput

/-- The interpreter error message for reading the never-assigned local
`agent_response` at line 387 (an `UnboundLocalError`; the exact interpreter
wording is abstracted by this constant). -/
def unboundLocalMsg : String :=
  "local variable agent_response referenced before assignment"

/-- The interpreter error message for `action.get(...)` when
`self.pending_action` is `None` (an `AttributeError`, abstracted). -/
def noneAttributeMsg : String :=
  "NoneType object has no attribute get"

/-- `_build_initial_prompt` (lines 212-218). -/
def build_initial_prompt (s : WFState) : String :=
  "Task: " ++ s.user_prompt.getD ""

/-- A normal return of value `r` from `_execute_with_human_loop` into `run`:
lines 199-204 then set `state := "completed"` and `final_report := r`
before `run` returns `r`. -/
def runReturn (r : String) (s : WFState) : WFState :=
  { s with state := .completed
           final_report := some r
           phase := .finished r }

/-- An unhandled exception with message `m` escaping into `run`'s handler
(lines 206-210): sets `state := "failed"`, records `error_message`, re-raises. -/
def runRaise (m : String) (s : WFState) : WFState :=
  { s with state := .failed
           error_message := some m
           phase := .crashed m }

/-- Run-loop progress past the initial suspension point
`await workflow.wait_condition(lambda: self.execution_started)` (line 156),
enabled only once `execution_started` holds; immediately followed by the
`should_end` early return of lines 158-160 (which leaves `final_report`
unset). -/
def passInitialWait (s : WFState) : WFState :=
  match s.phase with
  | .waitingStart =>
      if s.execution_started then
        if s.should_end then
          { s with state := .completed
                   phase := .finished "Workflow ended before execution"
                   startsPassed := s.startsPassed + 1 }
        else
          { s with phase := .discovering
                   startsPassed := s.startsPassed + 1 }
      else s
  | _ => s

/-- Run-loop progress past the MCP discovery activity (lines 164-188; per-server
load failures are caught and logged, so discovery always completes), then
`state := "executing"` (line 191), the initial transcript
`conversation_history = [initial_prompt]` (line 243) and entry into the agent
loop. -/
def beginExecution (s : WFState) : WFState :=
  match s.phase with
  | .discovering =>
      { s with state := .executing
               conversation_history := [build_initial_prompt s]
               phase := .loopTop 0
               convBegun := s.convBegun + 1 }
  | _ => s

/-- Parsing of the agent reply (lines 283-360): the `NEED_HUMAN_INPUT` branch
publishes question / tools / findings and waits (appending `AGENT: ...` only
on resume, line 321); the other two branches append `AGENT: ...` first and
publish the whole reply as the question with an empty tool list (`findings`
untouched).  All three clear the `action_received` event before waiting. -/
def processReply (i : Nat) (r : AgentReply) (s : WFState) : WFState :=
  match r with
  | .needHumanInput raw q tools fnds =>
      { s with lastAgentResponse := some raw
               state := .awaitingInput
               current_question := q
               suggested_mcp_tools := tools
               findings := fnds
               action_received := false
               phase := .awaitingAction i .needHumanInput raw }
  | .otherJson raw =>
      { s with lastAgentResponse := some raw
               conversation_history := s.conversation_history ++ ["AGENT: " ++ raw]
               state := .awaitingInput
               current_question := some raw
               suggested_mcp_tools := []
               action_received := false
               phase := .awaitingAction i .otherJson raw }
  | .notJson raw =>
      { s with lastAgentResponse := some raw
               conversation_history := s.conversation_history ++ ["AGENT: " ++ raw]
               state := .awaitingInput
               current_question := some raw
               suggested_mcp_tools := []
               action_received := false
               phase := .awaitingAction i .notJson raw }

/-- One pass through the body of `for iteration in range(max_iterations)`
(lines 246-281 up to the suspension), consuming the outcome `o` of this
iteration's `Runner.run` call.  When the range is exhausted the loop instead
falls through to lines 385-387, which read the local `agent_response` -- an
`UnboundLocalError` if no invocation ever succeeded. -/
def agentTurnStep (o : AgentOutcome) (s : WFState) : WFState :=
  match s.phase with
  | .loopTop i =>
      if max_iterations ≤ i then
        match s.lastAgentResponse with
        | some r => runReturn (maxIterMessage r) s
        | none => runRaise unboundLocalMsg s
      else if s.should_end then
        runReturn "Workflow ended by user request" s
      else
        match o with
        | .failure et em =>
            { s with conversation_history := s.conversation_history ++ [errorPrompt et em]
                     phase := .loopTop (i + 1) }
        | .reply r => processReply i r s
  | _ => s

/-- The user message folded into the transcript by the `NEED_HUMAN_INPUT`
resume path, tagged by action kind (lines 312-319). -/
def userMessage (a : Action) : String :=
  if a.action_type = "text" then "User response: " ++ a.content
  else if a.action_type = "tool_result" then "User provided tool result:\n" ++ a.content
  else if a.action_type = "approval" then "User decision: " ++ a.content
  else "User input: " ++ a.content

/-- The transcript entries appended when one operator action is consumed on
resume: the `NEED_HUMAN_INPUT` branch appends the deferred `AGENT:` line plus
the tagged user message (lines 321-322); the other branches append a single
`User:` line (lines 346, 378). -/
def consumedMessages (b : Branch) (raw : String) (a : Action) : List String :=
  match b with
  | .needHumanInput => ["AGENT: " ++ raw, userMessage a]
  | .otherJson => ["User: " ++ a.content]
  | .notJson => ["User: " ++ a.content]

/-- Run-loop progress past `await self.action_received.wait()` (enabled once
the event is set): the `should_end` early returns (lines 301-302, 341-342,
368-369; the non-JSON branches return the agent response itself), else the
pending action is consumed, folded into the transcript, and the loop re-enters
`executing` with `current_question` and `pending_action` cleared
(lines 304-327, 344-351, 371-383). -/
def resumeStep (s : WFState) : WFState :=
  match s.phase with
  | .awaitingAction i b raw =>
      if s.action_received then
        if s.should_end then
          runReturn (match b with
            | .needHumanInput => "Workflow ended by user request"
            | .otherJson => raw
            | .notJson => raw) s
        else
          match s.pending_action with
          | none => runRaise noneAttributeMsg s
          | some a =>
              { s with conversation_history :=
                         s.conversation_history ++ consumedMessages b raw a
                       state := .executing
                       current_question := none
                       pending_action := none
                       phase := .loopTop (i + 1) }
      else s
  | _ => s

/-- One event of an interleaving: a signal delivery by the workflow host, or
one quantum of run-loop progress between suspension points. -/
inductive Label
  | sigStart (execution_input : Option String)
  | sigAction (a : Action)
  | sigEnd
  | passWait
  | beginExec
  | agentTurn (o : AgentOutcome)
  | resume
deriving DecidableEq, Repr

/-- The deterministic effect of one event.  Run-loop labels whose suspension
point is not the current one stutter (the coroutine is simply not there). -/
def step (s : WFState) : Label → WFState
  | .sigStart inp => start_execution inp s
  | .sigAction a => provide_action a s
  | .sigEnd => end_workflow s
  | .passWait => passInitialWait s
  | .beginExec => beginExecution s
  | .agentTurn o => agentTurnStep o s
  | .resume => resumeStep s

/-- Execution of a whole interleaving. -/
def run (s : WFState) (tr : List Label) : WFState :=
  tr.foldl step s

/-- Inductive invariant of the workflow machine, strong enough for the
reachability claims below. -/
def GlobalInv (s : WFState) : Prop :=
  s.startsPassed ≤ 1 ∧
  s.convBegun ≤ 1 ∧
  (s.phase = .waitingStart → s.startsPassed = 0 ∧ s.convBegun = 0 ∧ s.current_question = none) ∧
  (s.phase = .discovering → s.startsPassed = 1 ∧ s.convBegun = 0 ∧ s.current_question = none) ∧
  (s.state = .executing → s.current_question = none) ∧
  (∀ m, s.phase = .crashed m → s.state = .failed ∧ s.error_message = some m)

/-! ## Part 2: the client side (`ein_agent_cli`) -/

/-- Python `s.lower()` (ASCII case folding suffices for the ids and names
involved). -/
def pyLower (s : String) : String := ⟨s.data.map Char.toLower⟩

/-- An ASCII whitespace character, as stripped by Python `str.strip()`. -/
def isPySpace (c : Char) : Bool := c = ' ' || c = '\t' || c = '\n' || c = '\r'

/-- Python `s.strip()`. -/
def pyStrip (s : String) : String :=
  ⟨((s.data.dropWhile isPySpace).reverse.dropWhile isPySpace).reverse⟩

/-- Python string containment `needle in hay` on character lists. -/
def charsContains (hay needle : List Char) : Bool :=
  match hay with
  | [] => needle.isEmpty
  | _ :: rest => needle.isPrefixOf hay || charsContains rest needle

/-- Python `needle in hay` for strings (substring test). -/
def pyInStr (needle hay : String) : Bool :=
  charsContains hay.data needle.data

/-- Python `s.startswith(p)` as a character-sequence prefix test. -/
def pyStartswith (s p : String) : Bool :=
  p.data.isPrefixOf s.data

/-- `dict.get(key, default)` on a string-to-string association list. -/
def dictGetD (d : List (String × String)) (key default : String) : String :=
  ((d.find? (fun kv => kv.1 = key)).map (fun kv => kv.2)).getD default

/-- Python truthiness of an optional list (`None` and `[]` are falsy). -/
def truthyList (l : Option (List String)) : Bool :=
  match l with
  | none => false
  | some v => ¬v.isEmpty

/-- Python truthiness of an optional string (`None` and `""` are falsy). -/
def truthyStr (x : Option String) : Bool :=
  match x with
  | none => false
  | some v => v ≠ ""

/-- The fields of an Alertmanager alert read by `filter_alerts`
(`ein_agent_cli/models.py` `AlertmanagerAlert`; the status object is reduced
to its `state` field, and the unread time/annotation/URL fields are omitted). -/
structure AlertmanagerAlert where
  labels : List (String × String)
  status_state : String
  fingerprint : String
deriving DecidableEq, Repr

/-- `AlertRegistry` (`ein_agent_cli/alertmanager.py` lines 16-48).
`__init__` keeps `set(alerts_whitelist) if alerts_whitelist else None`: an
absent or empty whitelist leaves `whitelist = None`; the set is modelled by
the list, membership being all that is ever asked of it. -/
structure AlertRegistry where
  whitelist : Option (List String)
deriving DecidableEq, Repr

/-- `AlertRegistry.__init__`. -/
def AlertRegistry.ofWhitelist (alerts_whitelist : Option (List String)) : AlertRegistry :=
  ⟨match alerts_whitelist with
   | some l => if l.isEmpty then none else some l
   | none => none⟩

/-- `AlertRegistry.is_whitelisted` (lines 26-48): no whitelist accepts
everything; otherwise the alert name must be a member, or some whitelist
entry a prefix of the fingerprint (`fingerprint.startswith(item)`). -/
def is_whitelisted (r : AlertRegistry) (alert_name : String) (fingerprint : String) : Bool :=
  match r.whitelist with
  | none => true
  | some wl => wl.contains alert_name || wl.any (fun item => pyStartswith fingerprint item)

/-- `AlertFilterParams` (`ein_agent_cli/models.py`). -/
structure AlertFilterParams where
  alerts : List AlertmanagerAlert
  whitelist : Option (List String)
  blacklist : Option (List String)
  status_filter : Option String
deriving DecidableEq, Repr

/-- The per-alert `continue` chain of `filter_alerts` (lines 105-122):
blacklist first, then status, then the whitelist check. -/
def keepAlert (p : AlertFilterParams) (registry : AlertRegistry) (alert : AlertmanagerAlert) : Bool :=
  let alert_name := dictGetD alert.labels "alertname" "unknown"
  let alert_status := alert.status_state
  if truthyList p.blacklist = true ∧ alert_name ∈ p.blacklist.getD [] then false
  else if truthyStr p.status_filter = true ∧ alert_status ≠ p.status_filter.getD "" then false
  else is_whitelisted registry alert_name alert.fingerprint

/-- `filter_alerts` (lines 91-130). -/
def filter_alerts (p : AlertFilterParams) : List AlertmanagerAlert :=
  let alert_registry := AlertRegistry.ofWhitelist p.whitelist
  p.alerts.filter (keepAlert p alert_registry)

/-- The dict `{"final_report": status.final_report}` stored as a completed
workflow's `result` by `_update_workflow_result` (line 444). -/
structure WorkflowResult where
  final_report : String
deriving DecidableEq, Repr

/-- Modelled from the spec: class `WorkflowMetadata` of
`ein_agent_cli/models.py` is not under src/ (only its callers are).
Per section 3 Workflow Metadata: `RCA{workflow_id, alert_fingerprint, status,
result}` (also used for `IncidentSummary` with a `None` fingerprint). -/
structure WorkflowMetadata where
  workflow_id : String
  alert_fingerprint : Option String
  status : String
  result : Option WorkflowResult
deriving DecidableEq, Repr

/-- The `enrichment_context` dict built by
`WorkflowsCommand._start_enrichment_rca`. -/
structure EnrichmentContext where
  compact_rca_id : String
  compact_summary : Option WorkflowResult
  source_workflows : List String
deriving DecidableEq, Repr

/-- Modelled from the spec: class `EnrichmentRCAMetadata` of
`ein_agent_cli/models.py` is not under src/.  Per section 3:
`EnrichmentRCA{workflow_id, alert_fingerprint, status, result,
enrichment_context}`; `none` models the empty dict `{}`. -/
structure EnrichmentRCAMetadata where
  workflow_id : String
  alert_fingerprint : Option String
  status : String
  result : Option WorkflowResult
  enrichment_context : Option EnrichmentContext
deriving DecidableEq, Repr

/-- Modelled from the spec: class `CompactMetadata` of
`ein_agent_cli/models.py` is not under src/.  Per section 3:
`Compact{workflow_id, source_workflow_ids, status, result}`. -/
structure CompactMetadata where
  workflow_id : String
  source_workflow_ids : List String
  status : String
  result : Option WorkflowResult
deriving DecidableEq, Repr

/-- A Context Item (spec section 3): stable `item_id` (the alert fingerprint),
an `item_type`, an opaque key/value `data` payload (modelled as a
string-to-string association list) and a `source`. -/
structure ContextItem where
  item_id : String
  item_type : String
  data : List (String × String)
  source : String
deriving DecidableEq, Repr

/-- Lookup in a string-keyed association list (dict read). -/
def assocLookup {α : Type} (l : List (String × α)) (key : String) : Option α :=
  (l.find? (fun kv => kv.1 = key)).map (fun kv => kv.2)

/-- Overwriting insertion in a string-keyed association list (`d[k] = v`). -/
def assocSet {α : Type} (l : List (String × α)) (key : String) (v : α) :
    List (String × α) :=
  (key, v) :: l.filter (fun kv => ¬(kv.1 = key))

/-- Pointwise update of the entry under `key` (mutating `d[k].field = ...`). -/
def assocUpdate {α : Type} (l : List (String × α)) (key : String) (f : α → α) :
    List (String × α) :=
  l.map (fun kv => if kv.1 = key then (kv.1, f kv.2) else kv)

/-- Modelled from the spec: class `LocalContext` of `ein_agent_cli/models.py`
is not under src/.  Per section 3 Local Context: a mapping from `item_id` to
Context Item, one mapping per workflow kind keyed by workflow id, and at most
one `compact_rca`, `compact_enrichment_rca` and `incident_summary`.
Mappings are association lists. -/
structure LocalContext where
  items : List (String × ContextItem)
  rca_workflows : List (String × WorkflowMetadata)
  enrichment_rca_workflows : List (String × EnrichmentRCAMetadata)
  compact_rca : Option CompactMetadata
  compact_enrichment_rca : Option CompactMetadata
  incident_summary : Option WorkflowMetadata
deriving DecidableEq, Repr

/-- A fresh, empty Local Context. -/
def emptyLocalContext : LocalContext :=
  ⟨[], [], [], none, none, none⟩

/-- Modelled from the spec: `LocalContext.get_item` (look up a Context Item
by id). -/
def LocalContext.get_item (ctx : LocalContext) (item_id : String) : Option ContextItem :=
  assocLookup ctx.items item_id

/-- Modelled from the spec: `LocalContext.add_item` (insert a Context Item,
unique by `item_id`). -/
def LocalContext.add_item (ctx : LocalContext) (item : ContextItem) : LocalContext :=
  { ctx with items := assocSet ctx.items item.item_id item }

/-- Modelled from the spec: `LocalContext.add_rca_workflow` (record keyed by
its workflow id). -/
def LocalContext.add_rca_workflow (ctx : LocalContext) (m : WorkflowMetadata) :
    LocalContext :=
  { ctx with rca_workflows := assocSet ctx.rca_workflows m.workflow_id m }

/-- Modelled from the spec: `LocalContext.add_enrichment_rca_workflow`. -/
def LocalContext.add_enrichment_rca_workflow (ctx : LocalContext)
    (m : EnrichmentRCAMetadata) : LocalContext :=
  { ctx with enrichment_rca_workflows :=
      assocSet ctx.enrichment_rca_workflows m.workflow_id m }

/-- One row of the flattened `LocalContext.get_all_workflows()` view, with the
fields read by the `/workflows` handlers (`wf.get("type")`, `wf.get("status")`,
`wf.get("alert_fingerprint")`, `wf.get("workflow_id")`, `wf.get("result")`). -/
structure WorkflowRow where
  workflow_id : String
  type : String
  status : String
  alert_fingerprint : Option String
  result : Option WorkflowResult
deriving DecidableEq, Repr

/-- A simple deterministic stand-in for `json.dumps(..., indent=2)` on a
string-to-string payload; no claim depends on the rendering, only on the
prompt embedding the data. -/
def jsonDump (kvs : List (String × String)) : String :=
  "\x7b" ++ String.intercalate ", " (kvs.map (fun kv => kv.1 ++ ": " ++ kv.2)) ++ "\x7d"

/-- Rendering of the `enrichment_context` dict into the prompt (stand-in for
`json.dumps(enrichment_context, indent=2)`). -/
def renderEnrichmentContext (e : EnrichmentContext) : String :=
  jsonDump [("compact_rca_id", e.compact_rca_id),
            ("compact_summary", match e.compact_summary with
              | none => "null"
              | some r => r.final_report),
            ("source_workflows", String.intercalate ", " e.source_workflows)]

/-- The outcome of `WorkflowsCommand._start_enrichment_rca`
(`slash_commands/workflows.py` lines 107-143): `rejected msg` models printing
the error (or warning) and returning `None` to the interactive list;
`create ...` models returning a `CommandResult` with `should_create_new`. -/
inductive EnrichmentOutcome
  | rejected (message : String)
  | create (new_workflow_prompt : String) (alert_fingerprint : Option String)
      (ectx : EnrichmentContext)
deriving DecidableEq, Repr

/-- `WorkflowsCommand._start_enrichment_rca`: guards in source order -- the
selected row must be a completed RCA; `compact_rca` must exist; it must be
`completed`; the alert referenced by the row's fingerprint must still be in
the context.  Only then is the enrichment prompt built. -/
def start_enrichment_rca (wf : WorkflowRow) (ctx : LocalContext) : EnrichmentOutcome :=
  if ¬(wf.type = "RCA" ∧ wf.status = "completed") then
    .rejected "Enrichment RCA can only be started for completed RCA workflows."
  else
    match ctx.compact_rca with
    | none => .rejected "Compact RCA not found in context. Run /compact-rca first."
    | some compact =>
      if ¬(compact.status = "completed") then
        .rejected "Compact RCA is not yet completed."
      else
        match wf.alert_fingerprint with
        | none => .rejected "Alert not found: None"
        | some fp =>
          match ctx.get_item fp with
          | none => .rejected ("Alert not found: " ++ fp)
          | some alert_item =>
            let ectx : EnrichmentContext :=
              ⟨compact.workflow_id, compact.result, compact.source_workflow_ids⟩
            .create
              ("Perform enrichment RCA for this alert using compact RCA context.\n\nAlert details:\n"
                ++ jsonDump alert_item.data
                ++ "\n\nEnrichment context (from compact RCA):\n"
                ++ renderEnrichmentContext ectx)
              (some fp) ectx

/-- An RPC issued to the Workflow Host by `_create_new_workflow` (through
`trigger_human_in_loop_workflow` and `start_workflow_execution` in
`ein_agent_cli/temporal.py`). -/
inductive RpcCall
  | start_workflow (workflow_type : String) (workflow_id : String)
  | signal (workflow_id : String) (signal_name : String)
deriving DecidableEq, Repr

/-- The workflow-creation request carried in a `CommandResult` with
`should_create_new` (`slash_commands/base.py`). -/
structure CreateRequest where
  new_workflow_prompt : String
  workflow_type : Option String
  alert_fingerprint : Option String
  enrichment_context : Option EnrichmentContext
  source_workflow_ids : Option (List String)
deriving DecidableEq, Repr

/-- `_create_new_workflow` (`orchestrators/human_in_the_loop.py` lines
107-193): starts the remote workflow (an RPC starting `HumanInLoopWorkflow`
plus the `start_execution` signal), then inserts the metadata record matching
the workflow type, with `status = "running"` and `result = None`, into the
current Local Context.  `new_workflow_id` is the id produced by
`trigger_human_in_loop_workflow`. -/
def create_new_workflow (new_workflow_id : String) (req : CreateRequest)
    (ctx : LocalContext) : LocalContext × List RpcCall :=
  let rpcs := [RpcCall.start_workflow "HumanInLoopWorkflow" new_workflow_id,
               RpcCall.signal new_workflow_id "start_execution"]
  match req.workflow_type with
  | some "RCA" =>
      (ctx.add_rca_workflow
        ⟨new_workflow_id, req.alert_fingerprint, "running", none⟩, rpcs)
  | some "EnrichmentRCA" =>
      (ctx.add_enrichment_rca_workflow
        ⟨new_workflow_id, req.alert_fingerprint, "running", none,
         req.enrichment_context⟩, rpcs)
  | some "CompactRCA" =>
      ({ ctx with compact_rca :=
          (some ⟨new_workflow_id, req.source_workflow_ids.getD [], "running", none⟩) }, rpcs)
  | some "CompactEnrichmentRCA" =>
      ({ ctx with compact_enrichment_rca :=
          (some ⟨new_workflow_id, req.source_workflow_ids.getD [], "running", none⟩) }, rpcs)
  | some "IncidentSummary" =>
      ({ ctx with incident_summary :=
          (some ⟨new_workflow_id, none, "running", none⟩) }, rpcs)
  | _ => (ctx, rpcs)

/-- The `/workflows` enrichment action end to end: a `rejected` outcome means
`_start_enrichment_rca` returned `None`, the interactive list produces no
`should_create_new` command result, and the dispatcher makes no RPC and no
metadata insertion; a `create` outcome flows through
`_interactive_workflow_loop` into `_create_new_workflow`. -/
def processEnrichmentSelection (wf : WorkflowRow) (ctx : LocalContext)
    (new_workflow_id : String) : LocalContext × List RpcCall :=
  match start_enrichment_rca wf ctx with
  | .rejected _ => (ctx, [])
  | .create new_workflow_prompt fp ectx =>
      create_new_workflow new_workflow_id
        ⟨new_workflow_prompt, some "EnrichmentRCA", fp, some ectx, none⟩ ctx

/-- `{"final_report": status.final_report} if status.final_report else None`
(line 444 of the orchestrator; an empty-string report is falsy). -/
def workflowResultOf (status : WorkflowStatus) : Option WorkflowResult :=
  match status.final_report with
  | some fr => if fr = "" then none else some ⟨fr⟩
  | none => none

/-- `_update_workflow_result` (orchestrator lines 437-487): find the workflow
in the local context (RCA map, then enrichment map, then the three
singletons) and set `status := "completed"` and `result`. -/
def update_workflow_result (workflow_id : String) (ctx : LocalContext)
    (status : WorkflowStatus) : LocalContext :=
  let workflow_result := workflowResultOf status
  if (assocLookup ctx.rca_workflows workflow_id).isSome then
    { ctx with rca_workflows := (assocUpdate ctx.rca_workflows workflow_id
        (fun m => { m with status := "completed", result := workflow_result })) }
  else if (assocLookup ctx.enrichment_rca_workflows workflow_id).isSome then
    { ctx with enrichment_rca_workflows :=
        (assocUpdate ctx.enrichment_rca_workflows workflow_id
          (fun m => { m with status := "completed", result := workflow_result })) }
  else if ctx.compact_rca.any (fun c => c.workflow_id = workflow_id) then
    { ctx with compact_rca := (ctx.compact_rca.map
        (fun c => { c with status := "completed", result := workflow_result })) }
  else if ctx.compact_enrichment_rca.any (fun c => c.workflow_id = workflow_id) then
    { ctx with compact_enrichment_rca := (ctx.compact_enrichment_rca.map
        (fun c => { c with status := "completed", result := workflow_result })) }
  else if ctx.incident_summary.any (fun m => m.workflow_id = workflow_id) then
    { ctx with incident_summary := (ctx.incident_summary.map
        (fun m => { m with status := "completed", result := workflow_result })) }
  else ctx

/-- `PASS_1_RCA_PROMPT.format(alert_details=...)` (`slash_commands/alerts.py`). -/
def pass1RcaPrompt (alert_details : String) : String :=
  "You are an RCA analyst. Your task is to perform a root cause analysis for the given alert.\n\nHere is the alert details:\n"
  ++ alert_details ++ "\n"

/-- `AlertsCommand._start_rca_workflow`: builds the RCA prompt from the alert
item and returns a `CommandResult` requesting an `RCA` workflow for the
item's fingerprint. -/
def start_rca_workflow (item : ContextItem) : CreateRequest :=
  ⟨pass1RcaPrompt (jsonDump item.data), some "RCA", some item.item_id, none, none⟩

/-- How `_interactive_workflow_loop` (orchestrator lines 277-338) reacts to a
polled `status.state`: `executing` sleeps `poll_interval` and re-polls;
`awaiting_input` prompts the operator; `completed` updates the local result
and enters the completed-workflow loop; `failed` raises `typer.Exit(1)`,
which `run_human_in_loop` re-raises, terminating the CLI process with exit
code 1; `pending` matches no branch and the loop re-polls immediately. -/
inductive PollOutcome
  | keepPolling
  | promptOperator
  | handleCompleted
  | exitProcess (code : Nat)
  | rePoll
deriving DecidableEq, Repr

/-- The `status.state` dispatch of `_interactive_workflow_loop`. -/
def interactive_loop_dispatch (state : Lifecycle) : PollOutcome :=
  match state with
  | .executing => .keepPolling
  | .awaitingInput => .promptOperator
  | .completed => .handleCompleted
  | .failed => .exitProcess 1
  | .pending => .rePoll

/-- A Context (spec section 3): generated unique `context_id`, optional
human-readable `context_name`, one Local Context. -/
structure Context where
  context_id : String
  context_name : Option String
  local_context : LocalContext
deriving DecidableEq, Repr

/-- Modelled from the spec: class `SessionState` of `ein_agent_cli/models.py`
is not under src/.  Per section 3: a mapping from `context_id` to Context
(modelled as the dict's value list in iteration order, each value carrying its
own key), `current_context_id`, `current_workflow_id`. -/
structure SessionState where
  contexts : List Context
  current_context_id : String
  current_workflow_id : Option String
deriving DecidableEq, Repr

/-- Exact `context_id` match (`search_term in session.contexts`, a dict lookup
keyed by context id). -/
def exactIdMatch (search_term : String) (ctx : Context) : Bool :=
  ctx.context_id = search_term

/-- Case-insensitive name match
(`ctx.context_name and ctx.context_name.lower() == search_term.lower()`;
an empty name is falsy and never matches). -/
def nameCiMatch (search_term : String) (ctx : Context) : Bool :=
  match ctx.context_name with
  | some n => ¬(n = "") ∧ pyLower n = pyLower search_term
  | none => false

/-- Partial id match (`search_term.lower() in ctx.context_id.lower()`). -/
def idSubstrMatch (search_term : String) (ctx : Context) : Bool :=
  pyInStr (pyLower search_term) (pyLower ctx.context_id)

/-- The context-resolution logic of `SwitchContextCommand.execute`
(`slash_commands/switch_context.py` lines 87-113): exact id lookup, then the
first case-insensitive name match in list order, then the first id-substring
match in list order. -/
def resolveContext (contexts : List Context) (search_term : String) : Option Context :=
  match contexts.find? (exactIdMatch search_term) with
  | some c => some c
  | none =>
    match contexts.find? (nameCiMatch search_term) with
    | some c => some c
    | none => contexts.find? (idSubstrMatch search_term)

/-- What `SwitchContextCommand.execute` did, beyond returning an empty
`CommandResult`. -/
inductive SwitchOutcome
  | guarded (message : String)
  | cancelled
  | notFound (message : String)
  | alreadyCurrent
  | switched (context_id : String)
deriving DecidableEq, Repr

/-- `SwitchContextCommand.execute`, given the operator's raw input line: the
zero/one-context guards, the blank-input cancel, resolution, the
already-current shortcut, and the switch itself (`session.switch_context`,
modelled from the spec as setting `current_context_id`). -/
def switch_context_execute (session : SessionState) (user_input : String) :
    SessionState × SwitchOutcome :=
  if session.contexts.length = 0 then
    (session, .guarded "No contexts available.")
  else if session.contexts.length = 1 then
    (session, .guarded "Only one context exists. Use /new to create more.")
  else
    let search_term := pyStrip user_input
    if search_term = "" then (session, .cancelled)
    else
      match resolveContext session.contexts search_term with
      | none => (session, .notFound ("Context " ++ search_term ++ " not found."))
      | some c =>
          if c.context_id = session.current_context_id then
            (session, .alreadyCurrent)
          else
            ({ session with current_context_id := c.context_id },
             .switched c.context_id)

/-! ## Concrete instances used by counterexamples and witnesses -/

/-- An out-of-band action delivered before the workflow awaits input. -/
def c2Early : Action := ⟨"text", "early answer"⟩

/-- The legitimate action satisfying the wait. -/
def c2Answer : Action := ⟨"text", "real answer"⟩

/-- A run in which an action was delivered while still `pending`; the workflow
then started and sits at the top of its agent loop, the stale event still set. -/
def c2LoopState : WFState :=
  run initState
    [.sigAction c2Early, .sigStart (some "investigate pod"), .passWait, .beginExec]

/-- A run in which an action is delivered while still `pending`, the workflow
then starts, produces a plain-prose reply, suspends, and receives the real
answer. -/
def c2AwaitState : WFState :=
  run initState
    [.sigAction c2Early, .sigStart (some "investigate pod"), .passWait, .beginExec,
     .agentTurn (.reply (.notJson "agent output")), .sigAction c2Answer]

/-- A run that consumes one `NEED_HUMAN_INPUT` round trip: the agent publishes
a question with a suggested tool and a finding, the operator answers, and the
loop re-enters `executing`. -/
def c5Trace : List Label :=
  [.sigStart (some "investigate pod"), .passWait, .beginExec,
   .agentTurn (.reply (.needHumanInput "raw need input" (some "which cluster")
     ["kubernetes"] ["pod is crashlooping"])),
   .sigAction ⟨"text", "cluster A"⟩, .resume]

/-- A run suspended in the `NEED_HUMAN_INPUT` branch with the answer already
delivered. -/
def c5AwaitState : WFState :=
  run initState
    [.sigStart (some "t"), .passWait, .beginExec,
     .agentTurn (.reply (.needHumanInput "raw" (some "q") ["tool-b"] ["f-b"])),
     .sigAction ⟨"approval", "yes"⟩]

/-- A run whose every agent invocation fails: 50 failed turns exhaust the
budget, and the 51st visit to the loop head falls through to the summary line
that reads the never-assigned `agent_response` local. -/
def c7Trace : List Label :=
  [.sigStart (some "t"), .passWait, .beginExec] ++
    List.replicate 51 (.agentTurn (.failure "ApplicationError" "MCP activity failed"))

/-- A run with one successful plain-prose turn followed by 49 failed turns:
the loop head sits at iteration 50 with a recorded last agent output. -/
def c7WitnessState : WFState :=
  run initState
    ([.sigStart (some "t"), .passWait, .beginExec,
      .agentTurn (.reply (.notJson "last output")), .sigAction ⟨"text", "continue"⟩,
      .resume] ++
      List.replicate 49 (.agentTurn (.failure "ApplicationError" "MCP activity failed")))

/-- A run reaching the loop head ready for its first agent call. -/
def c7LoopState : WFState :=
  run initState [.sigStart (some "t"), .passWait, .beginExec]

/-- A run that crashes with the unbound-local error: 51 failed turns. -/
def c3Trace : List Label :=
  [.sigStart (some "t"), .passWait, .beginExec] ++
    List.replicate 51 (.agentTurn (.failure "RuntimeError" "boom"))

/-- A completed compact-RCA record. -/
def c4Compact : CompactMetadata :=
  ⟨"wf-compact", ["wf-rca-1"], "completed", some ⟨"compact summary"⟩⟩

/-- A completed RCA row whose alert fingerprint dangles (the alert was removed
from the context, which section 4.2 of the spec explicitly permits). -/
def c4Wf : WorkflowRow :=
  ⟨"wf-rca-1", "RCA", "completed", some "fp-pruned", none⟩

/-- A context holding the completed RCA record and the completed compact-RCA
record, but no alert items. -/
def c4Ctx : LocalContext :=
  { emptyLocalContext with
      compact_rca := some c4Compact
      rca_workflows :=
        [("wf-rca-1", ⟨"wf-rca-1", some "fp-pruned", "completed", some ⟨"rca report"⟩⟩)] }

/-- A context like `c4Ctx` but still holding the alert item. -/
def c4CtxWithAlert : LocalContext :=
  c4Ctx.add_item ⟨"fp-pruned", "alert", [("alertname", "PodCrash")], "alertmanager"⟩

/-- A context whose compact-RCA record exists but is still running. -/
def c4CtxRunning : LocalContext :=
  { emptyLocalContext with compact_rca := some ⟨"wf-compact", [], "running", none⟩ }

/-- The three alerts of the filtering scenario in spec section 8. -/
def c10Watchdog : AlertmanagerAlert := ⟨[("alertname", "Watchdog")], "firing", "w1"⟩

/-- A firing `PodCrash` alert. -/
def c10PodCrashFiring : AlertmanagerAlert := ⟨[("alertname", "PodCrash")], "firing", "p1"⟩

/-- A resolved `PodCrash` alert. -/
def c10PodCrashResolved : AlertmanagerAlert :=
  ⟨[("alertname", "PodCrash")], "resolved", "p2"⟩

/-- Filter parameters: blacklist `["Watchdog"]`, whitelist unset, status
`"firing"`. -/
def c10Params : AlertFilterParams :=
  ⟨[c10Watchdog, c10PodCrashFiring, c10PodCrashResolved], none, some ["Watchdog"],
   some "firing"⟩

/-- The imported `PodCrash` alert of the C8 scenario. -/
def c8Alert : ContextItem :=
  ⟨"abc123", "alert", [("alertname", "PodCrash"), ("status", "firing")],
   "http://alertmanager:9093"⟩

/-- The context after importing the alert. -/
def c8Ctx1 : LocalContext := emptyLocalContext.add_item c8Alert

/-- The create request produced by the start-RCA action on the alert. -/
def c8Request : CreateRequest := start_rca_workflow c8Alert

/-- The context and RPCs after the dispatcher creates the RCA workflow. -/
def c8Created : LocalContext × List RpcCall :=
  create_new_workflow "human-in-loop-20260101-120000" c8Request c8Ctx1

/-- The status observed on the poll where the remote reports completion. -/
def c8CompletedStatus : WorkflowStatus :=
  ⟨.completed, none, [], [], some "Root cause: OOMKilled", none⟩

/-- The context after `_update_workflow_result` processes that poll. -/
def c8Final : LocalContext :=
  update_workflow_result "human-in-loop-20260101-120000" c8Created.1 c8CompletedStatus

/-- Two contexts for the switch-context witness: distinct ids, names differing
only in case from the operator input. -/
def c9Contexts : List Context :=
  [⟨"ctx-alpha", some "Prod", emptyLocalContext⟩,
   ⟨"ctx-beta", some "prod", emptyLocalContext⟩]

/-- A session holding the two contexts, currently on the second. -/
def c9Session : SessionState := ⟨c9Contexts, "ctx-beta", none⟩

/-! ## Helper lemmas -/

theorem run_append (s : WFState) (tr1 tr2 : List Label) :
    run s (tr1 ++ tr2) = run (run s tr1) tr2 :=
  List.foldl_append ..

theorem run_cons (s : WFState) (l : Label) (tr : List Label) :
    run s (l :: tr) = run (step s l) tr := rfl

theorem start_execution_idem (p : Option String) (s : WFState) :
    start_execution p (start_execution p s) = start_execution p s := rfl

theorem globalInv_init : GlobalInv initState := by
  refine ⟨?_, ?_, ?_, ?_, ?_, ?_⟩ <;> simp [initState, GlobalInv]

theorem globalInv_step (s : WFState) (l : Label) (h : GlobalInv s) :
    GlobalInv (step s l) := by
  obtain ⟨h1, h2, h3, h4, h5, h6⟩ := h
  cases l with
  | sigStart inp =>
      exact ⟨h1, h2, h3, h4, h5, h6⟩
  | sigAction a =>
      exact ⟨h1, h2, h3, h4, h5, h6⟩
  | sigEnd =>
      exact ⟨h1, h2, h3, h4, h5, h6⟩
  | passWait =>
      show GlobalInv (passInitialWait s)
      unfold passInitialWait
      cases hp : s.phase <;> simp only []
      case waitingStart =>
        obtain ⟨hs0, hc0, hq0⟩ := h3 hp
        by_cases hex : s.execution_started <;> by_cases hse : s.should_end <;>
          simp [hex, hse, GlobalInv, hs0, hc0, hq0, h5, h6, hp]
      all_goals exact ⟨h1, h2, h3, h4, h5, h6⟩
  | beginExec =>
      show GlobalInv (beginExecution s)
      unfold beginExecution
      cases hp : s.phase <;> simp only []
      case discovering =>
        obtain ⟨hs1, hc0, hq0⟩ := h4 hp
        simp [GlobalInv, hs1, hc0, hq0]
      all_goals exact ⟨h1, h2, h3, h4, h5, h6⟩
  | agentTurn o =>
      show GlobalInv (agentTurnStep o s)
      unfold agentTurnStep
      cases hp : s.phase <;> simp only []
      case loopTop i =>
        by_cases hm : max_iterations ≤ i
        · cases hl : s.lastAgentResponse <;>
            simp [hm, hl, runReturn, runRaise, GlobalInv, h1, h2]
        · by_cases hse : s.should_end
          · simp [hm, hse, runReturn, GlobalInv, h1, h2]
          · cases o with
            | failure et em =>
                simp [hm, hse, GlobalInv, h1, h2]
                exact fun hst => h5 hst
            | reply r =>
                cases r <;>
                  simp [hm, hse, processReply, GlobalInv, h1, h2]
      all_goals exact ⟨h1, h2, h3, h4, h5, h6⟩
  | resume =>
      show GlobalInv (resumeStep s)
      unfold resumeStep
      cases hp : s.phase <;> simp only []
      case awaitingAction i b raw =>
        by_cases hr : s.action_received
        · by_cases hse : s.should_end
          · cases b <;> simp [hr, hse, runReturn, GlobalInv, h1, h2]
          · cases ha : s.pending_action with
            | none => simp [hr, hse, ha, runRaise, GlobalInv, h1, h2]
            | some a => simp [hr, hse, ha, GlobalInv, h1, h2]
        · simp only [hr, if_false]
          exact ⟨h1, h2, h3, h4, h5, h6⟩
      all_goals exact ⟨h1, h2, h3, h4, h5, h6⟩

theorem globalInv_run (s : WFState) (tr : List Label) (h : GlobalInv s) :
    GlobalInv (run s tr) := by
  induction tr generalizing s with
  | nil => exact h
  | cons l tr ih => exact ih _ (globalInv_step s l h)

theorem globalInv_reachable (tr : List Label) : GlobalInv (run initState tr) :=
  globalInv_run _ _ globalInv_init

/-- The ghost counters never decrease. -/
theorem counters_mono (s : WFState) (l : Label) :
    s.startsPassed ≤ (step s l).startsPassed ∧ s.convBegun ≤ (step s l).convBegun := by
  cases l with
  | sigStart inp => exact ⟨le_refl _, le_refl _⟩
  | sigAction a => exact ⟨le_refl _, le_refl _⟩
  | sigEnd => exact ⟨le_refl _, le_refl _⟩
  | passWait =>
      show _ ≤ (passInitialWait s).startsPassed ∧ _ ≤ (passInitialWait s).convBegun
      unfold passInitialWait
      cases s.phase <;> simp only []
      case waitingStart =>
        by_cases hex : s.execution_started <;> by_cases hse : s.should_end <;>
          simp [hex, hse]
      all_goals exact ⟨le_refl _, le_refl _⟩
  | beginExec =>
      show _ ≤ (beginExecution s).startsPassed ∧ _ ≤ (beginExecution s).convBegun
      unfold beginExecution
      cases s.phase <;> simp
  | agentTurn o =>
      show _ ≤ (agentTurnStep o s).startsPassed ∧ _ ≤ (agentTurnStep o s).convBegun
      unfold agentTurnStep
      cases s.phase <;> simp only []
      case loopTop i =>
        split
        · cases s.lastAgentResponse <;> simp [runReturn, runRaise]
        · split
          · simp [runReturn]
          · cases o with
            | failure et em => simp
            | reply r => cases r <;> simp [processReply]
      all_goals exact ⟨le_refl _, le_refl _⟩
  | resume =>
      show _ ≤ (resumeStep s).startsPassed ∧ _ ≤ (resumeStep s).convBegun
      unfold resumeStep
      cases s.phase <;> simp only []
      case awaitingAction i b raw =>
        split
        · split
          · cases b <;> simp [runReturn]
          · cases s.pending_action <;> simp [runRaise]
        · exact ⟨le_refl _, le_refl _⟩
      all_goals exact ⟨le_refl _, le_refl _⟩

theorem counters_mono_run (s : WFState) (tr : List Label) :
    s.startsPassed ≤ (run s tr).startsPassed ∧ s.convBegun ≤ (run s tr).convBegun := by
  induction tr generalizing s with
  | nil => exact ⟨le_refl _, le_refl _⟩
  | cons l tr ih =>
      obtain ⟨m1, m2⟩ := counters_mono s l
      obtain ⟨r1, r2⟩ := ih (step s l)
      exact ⟨le_trans m1 r1, le_trans m2 r2⟩


/-- The only label that writes `user_prompt` is a `start_execution` delivery,
which overwrites it with that delivery's payload. -/
theorem step_user_prompt (s : WFState) (l : Label) :
    (step s l).user_prompt =
      match l with
      | .sigStart p => some (p.getD "")
      | _ => s.user_prompt := by
  cases l with
  | sigStart p => rfl
  | sigAction a => rfl
  | sigEnd => rfl
  | passWait =>
      show (passInitialWait s).user_prompt = s.user_prompt
      unfold passInitialWait
      cases s.phase <;> simp only []
      case waitingStart =>
        by_cases h1 : s.execution_started <;> by_cases h2 : s.should_end <;>
          simp [h1, h2]
  | beginExec =>
      show (beginExecution s).user_prompt = s.user_prompt
      unfold beginExecution
      cases s.phase <;> rfl
  | agentTurn o =>
      show (agentTurnStep o s).user_prompt = s.user_prompt
      unfold agentTurnStep
      cases s.phase <;> simp only []
      case loopTop i =>
        split
        · cases s.lastAgentResponse <;> simp [runReturn, runRaise]
        · split
          · simp [runReturn]
          · cases o with
            | failure et em => simp
            | reply r => cases r <;> simp [processReply]
  | resume =>
      show (resumeStep s).user_prompt = s.user_prompt
      unfold resumeStep
      cases s.phase <;> simp only []
      case awaitingAction i b raw =>
        split
        · split
          · cases b <;> simp [runReturn]
          · cases s.pending_action <;> simp [runRaise]
        · rfl

/-- Whenever a run-loop agent turn moves the machine into `awaiting_input`,
the `action_received` event has just been cleared (lines 298, 338, 365), so an
action delivered before this point does not satisfy the coming wait. -/
theorem agentTurn_into_awaiting_clears_event (s : WFState) (o : AgentOutcome)
    (hpre : s.state ≠ .awaitingInput)
    (hpost : (step s (.agentTurn o)).state = .awaitingInput) :
    (step s (.agentTurn o)).action_received = false := by
  cases hp : s.phase
  case loopTop i =>
    by_cases hm : max_iterations ≤ i
    · cases hl : s.lastAgentResponse <;>
        simp [step, agentTurnStep, hp, hm, hl, runReturn, runRaise] at hpost
    · by_cases hse : s.should_end
      · simp [step, agentTurnStep, hp, hm, hse, runReturn] at hpost
      · cases o with
        | failure et em =>
            simp [step, agentTurnStep, hp, hm, hse] at hpost
            exact absurd hpost hpre
        | reply r =>
            cases r <;> simp [step, agentTurnStep, hp, hm, hse, processReply]
  all_goals
    simp [step, agentTurnStep, hp] at hpost
  all_goals exact absurd hpost hpre

/-- A `resume` with a pending action consumes it exactly once: the transcript
grows by exactly that action's messages and `pending_action` is cleared. -/
theorem resume_consumes_once (s : WFState) (i : Nat) (b : Branch) (raw : String)
    (a : Action)
    (hp : s.phase = .awaitingAction i b raw)
    (hr : s.action_received = true)
    (he : s.should_end = false)
    (ha : s.pending_action = some a) :
    (step s .resume).state = .executing ∧
    (step s .resume).current_question = none ∧
    (step s .resume).pending_action = none ∧
    (step s .resume).suggested_mcp_tools = s.suggested_mcp_tools ∧
    (step s .resume).findings = s.findings ∧
    (step s .resume).conversation_history
      = s.conversation_history ++ consumedMessages b raw a ∧
    (step s .resume).phase = .loopTop (i + 1) := by
  simp [step, resumeStep, hp, hr, he, ha]

/-- A `resume` away from the action wait is a stutter. -/
theorem resume_stutters (s : WFState)
    (h : ∀ i b raw, s.phase ≠ .awaitingAction i b raw) :
    step s .resume = s := by
  show resumeStep s = s
  unfold resumeStep
  cases hp : s.phase
  case awaitingAction i b raw => exact absurd hp (h i b raw)
  all_goals rfl

theorem assocLookup_assocSet {α : Type} (l : List (String × α)) (key : String)
    (v : α) : assocLookup (assocSet l key v) key = some v := by
  simp [assocLookup, assocSet, List.find?_cons]

/-! ## Claim theorems -/

/-- C1: for every interleaving of signal deliveries with run-loop progress --
duplicate `start_execution` redeliveries included -- the run loop passes its
initial wait at most once and the agent conversation is begun at most once;
once a start is delivered and the loop is scheduled, both happen exactly once
however the interleaving continues; and a duplicate redelivery of the same
`start_execution` payload leaves the whole execution unchanged. -/
theorem C1_start_execution_idempotent :
    (∀ tr : List Label,
        (run initState tr).startsPassed ≤ 1 ∧ (run initState tr).convBegun ≤ 1)
    ∧ (∀ (p : Option String) (tr : List Label),
        (run initState ([.sigStart p, .passWait, .beginExec] ++ tr)).startsPassed = 1
        ∧ (run initState ([.sigStart p, .passWait, .beginExec] ++ tr)).convBegun = 1)
    ∧ (∀ (tr1 tr2 : List Label) (p : Option String),
        run initState (tr1 ++ .sigStart p :: .sigStart p :: tr2)
          = run initState (tr1 ++ .sigStart p :: tr2)) := by
  refine ⟨?_, ?_, ?_⟩
  · intro tr
    obtain ⟨h1, h2, -⟩ := globalInv_reachable tr
    exact ⟨h1, h2⟩
  · intro p tr
    rw [run_append]
    have hs : (run initState [.sigStart p, .passWait, .beginExec]).startsPassed = 1 := rfl
    have hc : (run initState [.sigStart p, .passWait, .beginExec]).convBegun = 1 := rfl
    obtain ⟨m1, m2⟩ :=
      counters_mono_run (run initState [.sigStart p, .passWait, .beginExec]) tr
    have g := globalInv_reachable ([.sigStart p, .passWait, .beginExec] ++ tr)
    rw [run_append] at g
    obtain ⟨g1, g2, -⟩ := g
    omega
  · intro tr1 tr2 p
    rw [run_append, run_append, run_cons, run_cons, run_cons]
    exact congrArg (fun s => run s tr2) (start_execution_idem p (run initState tr1))

/-- C2: a `provide_action` delivery is always handled without crashing and
without touching the lifecycle state, the run position or the transcript; a
run-loop turn that moves into `awaiting_input` clears the wait event first, so
an out-of-band action never satisfies the coming wait by itself; when the wait
is legitimately satisfied, exactly one pending action is consumed into the
transcript and then cleared; and a `resume` anywhere else is a no-op, so a
consumed action is never applied twice. -/
theorem C2_out_of_band_action_tolerated :
    (∀ (s : WFState) (a : Action),
        (step s (.sigAction a)).state = s.state ∧
        (step s (.sigAction a)).phase = s.phase ∧
        (step s (.sigAction a)).conversation_history = s.conversation_history)
    ∧ (∀ (s : WFState) (o : AgentOutcome),
        s.state ≠ .awaitingInput →
        (step s (.agentTurn o)).state = .awaitingInput →
        (step s (.agentTurn o)).action_received = false)
    ∧ (∀ (s : WFState) (i : Nat) (b : Branch) (raw : String) (a : Action),
        s.phase = .awaitingAction i b raw →
        s.action_received = true →
        s.should_end = false →
        s.pending_action = some a →
        (step s .resume).pending_action = none ∧
        (step s .resume).conversation_history
          = s.conversation_history ++ consumedMessages b raw a)
    ∧ (∀ s : WFState, (∀ i b raw, s.phase ≠ .awaitingAction i b raw) →
        step s .resume = s) := by
  refine ⟨?_, agentTurn_into_awaiting_clears_event, ?_, resume_stutters⟩
  · intro s a
    exact ⟨rfl, rfl, rfl⟩
  · intro s i b raw a hp hr he ha
    obtain ⟨-, -, h3, -, -, h6, -⟩ := resume_consumes_once s i b raw a hp hr he ha
    exact ⟨h3, h6⟩

/-- Witness for C2 at concrete inputs: an action delivered while the machine
is still `pending` leaves the state untouched; the turn that later enters
`awaiting_input` clears the stale event; and the legitimate answer is consumed
exactly once. -/
theorem C2_out_of_band_action_tolerated_witness :
    ((step initState (.sigAction c2Early)).state = initState.state ∧
     (step initState (.sigAction c2Early)).phase = initState.phase ∧
     (step initState (.sigAction c2Early)).conversation_history
       = initState.conversation_history) ∧
    (c2LoopState.action_received = true ∧
     (step c2LoopState (.agentTurn (.reply (.notJson "agent output")))).action_received
       = false) ∧
    (c2AwaitState.pending_action = some c2Answer ∧
     (step c2AwaitState .resume).pending_action = none ∧
     (step c2AwaitState .resume).conversation_history
       = c2AwaitState.conversation_history
           ++ consumedMessages .notJson "agent output" c2Answer) ∧
    step initState .resume = initState :=
  ⟨C2_out_of_band_action_tolerated.1 initState c2Early,
   ⟨rfl,
    C2_out_of_band_action_tolerated.2.1 c2LoopState (.reply (.notJson "agent output"))
      (by simp [c2LoopState, run, step, initState, start_execution, provide_action,
                passInitialWait, beginExecution])
      rfl⟩,
   ⟨rfl,
    (C2_out_of_band_action_tolerated.2.2.1 c2AwaitState 0 .notJson "agent output"
      c2Answer rfl rfl rfl rfl).1,
    (C2_out_of_band_action_tolerated.2.2.1 c2AwaitState 0 .notJson "agent output"
      c2Answer rfl rfl rfl rfl).2⟩,
   C2_out_of_band_action_tolerated.2.2.2 initState
     (by intro i b raw h; simp [initState] at h)⟩

/-- C5 counterexample: after one `NEED_HUMAN_INPUT` round trip the machine is
back in `executing`, yet the suggested-tools list and the findings published
for the question are still present -- only `current_question` (and
`pending_action`) were cleared at lines 324-327. -/
theorem C5_counterexample :
    (run initState c5Trace).state = .executing ∧
    (run initState c5Trace).suggested_mcp_tools = ["kubernetes"] ∧
    (run initState c5Trace).findings = ["pod is crashlooping"] :=
  ⟨rfl, rfl, rfl⟩

/-- C5 amended: on the transition from `awaiting_input` back to `executing`
only `current_question` and `pending_action` are cleared, while
`suggested_mcp_tools` and `findings` keep their last published values; and in
every reachable `executing` state `current_question` is indeed `none`. -/
theorem C5_amended_transient_fields :
    (∀ (s : WFState) (i : Nat) (b : Branch) (raw : String) (a : Action),
        s.phase = .awaitingAction i b raw →
        s.action_received = true →
        s.should_end = false →
        s.pending_action = some a →
        (step s .resume).state = .executing ∧
        (step s .resume).current_question = none ∧
        (step s .resume).pending_action = none ∧
        (step s .resume).suggested_mcp_tools = s.suggested_mcp_tools ∧
        (step s .resume).findings = s.findings)
    ∧ (∀ tr : List Label,
        (run initState tr).state = .executing →
        (run initState tr).current_question = none) := by
  constructor
  · intro s i b raw a hp hr he ha
    obtain ⟨h1, h2, h3, h4, h5, -, -⟩ := resume_consumes_once s i b raw a hp hr he ha
    exact ⟨h1, h2, h3, h4, h5⟩
  · intro tr h
    obtain ⟨-, -, -, -, h5, -⟩ := globalInv_reachable tr
    exact h5 h

/-- Witness for C5 at concrete inputs. -/
theorem C5_amended_transient_fields_witness :
    c5AwaitState.phase = .awaitingAction 0 .needHumanInput "raw" ∧
    c5AwaitState.suggested_mcp_tools = ["tool-b"] ∧
    ((step c5AwaitState .resume).state = .executing ∧
     (step c5AwaitState .resume).current_question = none ∧
     (step c5AwaitState .resume).pending_action = none ∧
     (step c5AwaitState .resume).suggested_mcp_tools = c5AwaitState.suggested_mcp_tools ∧
     (step c5AwaitState .resume).findings = c5AwaitState.findings) ∧
    (run initState [.sigStart (some "t"), .passWait, .beginExec]).current_question
      = none :=
  ⟨rfl, rfl,
   C5_amended_transient_fields.1 c5AwaitState 0 .needHumanInput "raw"
     ⟨"approval", "yes"⟩ rfl rfl rfl rfl,
   C5_amended_transient_fields.2 [.sigStart (some "t"), .passWait, .beginExec] rfl⟩

/-- C6 counterexample: a second `start_execution` carrying a different payload
overwrites `user_prompt` (line 100 assigns unconditionally), so the value is
not immutable after the first start signal. -/
theorem C6_counterexample :
    (run initState [.sigStart (some "task-a")]).user_prompt = some "task-a" ∧
    (run initState
      [.sigStart (some "task-a"), .sigStart (some "task-b")]).user_prompt
        = some "task-b" ∧
    (some "task-b" : Option String) ≠ some "task-a" :=
  ⟨rfl, rfl, by decide⟩

/-- C6 amended: `user_prompt` is written by `start_execution` deliveries only
-- every such delivery, duplicates included, overwrites it with that
delivery's payload -- and is left unchanged by `provide_action`,
`end_workflow` and every run-loop step. -/
theorem C6_amended_user_prompt_writes :
    ∀ (s : WFState) (l : Label),
      (step s l).user_prompt =
        match l with
        | .sigStart p => some (p.getD "")
        | _ => s.user_prompt :=
  step_user_prompt

/-- C3 counterexample: the orchestrator's poll loop, on observing
`state = failed`, raises `typer.Exit(1)` (lines 336-338), i.e. it terminates
the CLI process rather than keeping the session alive -- refuting the claim's
clause that the failure is reported without terminating the CLI. -/
theorem C3_counterexample :
    interactive_loop_dispatch .failed = .exitProcess 1 ∧
    PollOutcome.exitProcess 1 ≠ .keepPolling ∧
    PollOutcome.exitProcess 1 ≠ .promptOperator :=
  ⟨rfl, by decide, by decide⟩

/-- C3 amended: an unhandled exception in the run loop does make that one
workflow transition to `failed` with `error_message` recorded (the fault stays
inside that instance), but the orchestrator observing `state = failed` while
polling reports the failure and then terminates the CLI process with exit
code 1 -- and `failed` is the only polled state that does so. -/
theorem C3_amended_failure_handling :
    (∀ (tr : List Label) (m : String),
        (run initState tr).phase = .crashed m →
        (run initState tr).state = .failed ∧
        (run initState tr).error_message = some m)
    ∧ interactive_loop_dispatch .failed = .exitProcess 1
    ∧ (∀ st : Lifecycle, interactive_loop_dispatch st = .exitProcess 1 → st = .failed) := by
  refine ⟨?_, rfl, ?_⟩
  · intro tr m h
    obtain ⟨-, -, -, -, -, h6⟩ := globalInv_reachable tr
    exact h6 m h
  · intro st h
    cases st <;> simp [interactive_loop_dispatch] at h ⊢

/-- Witness for C3 at a concrete input: a run whose 50 agent invocations all
fail crashes reading the unbound `agent_response` local, ends `failed` with
the error recorded, and the orchestrator exits on seeing it. -/
theorem C3_amended_failure_handling_witness :
    (run initState c3Trace).phase = .crashed unboundLocalMsg ∧
    ((run initState c3Trace).state = .failed ∧
     (run initState c3Trace).error_message = some unboundLocalMsg) ∧
    Lifecycle.failed = .failed :=
  ⟨rfl,
   C3_amended_failure_handling.1 c3Trace unboundLocalMsg rfl,
   C3_amended_failure_handling.2.2 .failed rfl⟩

/-- C7 counterexample: in the interleaving where all 50 agent invocations
fail, exhausting the turn budget does not produce the "max iterations reached"
completion -- line 387 reads the never-assigned `agent_response` local, the
resulting error escapes, and the workflow ends `failed` with no
`final_report`. -/
theorem C7_counterexample :
    (run initState c7Trace).state = .failed ∧
    (run initState c7Trace).final_report = none ∧
    (run initState c7Trace).error_message = some unboundLocalMsg :=
  ⟨rfl, rfl, rfl⟩

/-- C7 amended: exhausting the 50-turn budget exits with the
"max iterations reached" result summarizing the last agent output and the
state becomes `completed`, for every interleaving in which at least one
invocation succeeded (so a last output exists); each failed invocation is not
retried -- it appends exactly the synthetic system message, consumes the turn,
produces no agent output and raises no workflow fault. -/
theorem C7_amended_max_iterations :
    (∀ (s : WFState) (i : Nat) (o : AgentOutcome) (r : String),
        s.phase = .loopTop i → max_iterations ≤ i → s.lastAgentResponse = some r →
        (step s (.agentTurn o)).state = .completed ∧
        (step s (.agentTurn o)).final_report = some (maxIterMessage r))
    ∧ (∀ (s : WFState) (i : Nat) (et em : String),
        s.phase = .loopTop i → i < max_iterations → s.should_end = false →
        (step s (.agentTurn (.failure et em))).conversation_history
          = s.conversation_history ++ [errorPrompt et em] ∧
        (step s (.agentTurn (.failure et em))).phase = .loopTop (i + 1) ∧
        (step s (.agentTurn (.failure et em))).state = s.state ∧
        (step s (.agentTurn (.failure et em))).lastAgentResponse = s.lastAgentResponse ∧
        (step s (.agentTurn (.failure et em))).error_message = s.error_message) := by
  constructor
  · intro s i o r hp hm hl
    constructor <;> simp [step, agentTurnStep, hp, hm, hl, runReturn]
  · intro s i et em hp hm he
    have hm' : ¬ max_iterations ≤ i := by omega
    refine ⟨?_, ?_, ?_, ?_, ?_⟩ <;> simp [step, agentTurnStep, hp, hm', he]

/-- Witness for C7 at concrete inputs: a run with one successful turn and 49
failed ones sits at iteration 50; the next visit to the loop head completes
with the max-iterations summary, and a failed turn from the loop head appends
exactly one synthetic message. -/
theorem C7_amended_max_iterations_witness :
    (c7WitnessState.phase = .loopTop 50 ∧ max_iterations ≤ 50 ∧
     c7WitnessState.lastAgentResponse = some "last output") ∧
    ((step c7WitnessState (.agentTurn (.failure "E" "m"))).state = .completed ∧
     (step c7WitnessState (.agentTurn (.failure "E" "m"))).final_report
       = some (maxIterMessage "last output")) ∧
    ((step c7LoopState (.agentTurn (.failure "E" "m"))).conversation_history
       = c7LoopState.conversation_history ++ [errorPrompt "E" "m"] ∧
     (step c7LoopState (.agentTurn (.failure "E" "m"))).phase = .loopTop (0 + 1) ∧
     (step c7LoopState (.agentTurn (.failure "E" "m"))).state = c7LoopState.state ∧
     (step c7LoopState (.agentTurn (.failure "E" "m"))).lastAgentResponse
       = c7LoopState.lastAgentResponse ∧
     (step c7LoopState (.agentTurn (.failure "E" "m"))).error_message
       = c7LoopState.error_message) :=
  ⟨⟨rfl, by decide, rfl⟩,
   C7_amended_max_iterations.1 c7WitnessState 50 (.failure "E" "m") "last output"
     rfl (by decide) rfl,
   C7_amended_max_iterations.2 c7LoopState 0 "E" "m" rfl (by decide) rfl⟩

/-- C4 counterexample: a context with a *completed* compact-RCA record and a
completed RCA row whose alert was pruned from the context: creation does not
proceed -- `_start_enrichment_rca` rejects with "Alert not found" and no
metadata entry or RPC is produced -- refuting the claim's clause that a
completed compact record plus a completed source RCA suffice. -/
theorem C4_counterexample :
    c4Ctx.compact_rca = some c4Compact ∧
    c4Compact.status = "completed" ∧
    c4Wf.type = "RCA" ∧
    c4Wf.status = "completed" ∧
    start_enrichment_rca c4Wf c4Ctx = .rejected "Alert not found: fp-pruned" ∧
    processEnrichmentSelection c4Wf c4Ctx "wf-new" = (c4Ctx, []) :=
  ⟨rfl, rfl, rfl, rfl, rfl, rfl⟩

/-- C4 amended: enrichment creation with `compact_rca` absent, or present but
not `completed`, is rejected with a reported error and produces no metadata
entry and no RPC; when `compact_rca` is `completed`, the selected row is a
completed RCA, *and* the row's alert fingerprint still resolves to an item in
the context, creation proceeds: the two start RPCs are issued and an
`EnrichmentRCA` record with `status = "running"` is inserted under the new
workflow id. -/
theorem C4_amended_enrichment_guard :
    (∀ (wf : WorkflowRow) (ctx : LocalContext) (wid : String),
        ctx.compact_rca = none →
        (∃ msg, start_enrichment_rca wf ctx = .rejected msg) ∧
        processEnrichmentSelection wf ctx wid = (ctx, []))
    ∧ (∀ (wf : WorkflowRow) (ctx : LocalContext) (wid : String) (c : CompactMetadata),
        ctx.compact_rca = some c → ¬(c.status = "completed") →
        (∃ msg, start_enrichment_rca wf ctx = .rejected msg) ∧
        processEnrichmentSelection wf ctx wid = (ctx, []))
    ∧ (∀ (wf : WorkflowRow) (ctx : LocalContext) (wid : String) (c : CompactMetadata)
        (fp : String) (item : ContextItem),
        ctx.compact_rca = some c → c.status = "completed" →
        wf.type = "RCA" → wf.status = "completed" →
        wf.alert_fingerprint = some fp → ctx.get_item fp = some item →
        (processEnrichmentSelection wf ctx wid).2
          = [RpcCall.start_workflow "HumanInLoopWorkflow" wid,
             RpcCall.signal wid "start_execution"] ∧
        assocLookup (processEnrichmentSelection wf ctx wid).1.enrichment_rca_workflows wid
          = some ⟨wid, some fp, "running", none,
                  some ⟨c.workflow_id, c.result, c.source_workflow_ids⟩⟩) := by
  refine ⟨?_, ?_, ?_⟩
  · intro wf ctx wid h
    by_cases hg : wf.type = "RCA" ∧ wf.status = "completed"
    · refine ⟨⟨"Compact RCA not found in context. Run /compact-rca first.", ?_⟩, ?_⟩ <;>
        simp [start_enrichment_rca, processEnrichmentSelection, h, hg]
    · refine ⟨⟨"Enrichment RCA can only be started for completed RCA workflows.", ?_⟩, ?_⟩ <;>
        simp [start_enrichment_rca, processEnrichmentSelection, h, hg]
  · intro wf ctx wid c h hc
    by_cases hg : wf.type = "RCA" ∧ wf.status = "completed"
    · refine ⟨⟨"Compact RCA is not yet completed.", ?_⟩, ?_⟩ <;>
        simp [start_enrichment_rca, processEnrichmentSelection, h, hg, hc]
    · refine ⟨⟨"Enrichment RCA can only be started for completed RCA workflows.", ?_⟩, ?_⟩ <;>
        simp [start_enrichment_rca, processEnrichmentSelection, h, hg, hc]
  · intro wf ctx wid c fp item h hc ht hs hf hi
    have hg : wf.type = "RCA" ∧ wf.status = "completed" := ⟨ht, hs⟩
    constructor
    · simp [processEnrichmentSelection, start_enrichment_rca, h, hc, hg, hf, hi,
            create_new_workflow]
    · simp [processEnrichmentSelection, start_enrichment_rca, h, hc, hg, hf, hi,
            create_new_workflow, LocalContext.add_enrichment_rca_workflow,
            assocLookup_assocSet]

/-- Witness for C4 at concrete inputs: no compact record, a running compact
record, and the full success path. -/
theorem C4_amended_enrichment_guard_witness :
    (emptyLocalContext.compact_rca = none ∧
     ((∃ msg, start_enrichment_rca c4Wf emptyLocalContext = .rejected msg) ∧
      processEnrichmentSelection c4Wf emptyLocalContext "wf-new-a"
        = (emptyLocalContext, []))) ∧
    (c4CtxRunning.compact_rca = some ⟨"wf-compact", [], "running", none⟩ ∧
     ((∃ msg, start_enrichment_rca c4Wf c4CtxRunning = .rejected msg) ∧
      processEnrichmentSelection c4Wf c4CtxRunning "wf-new-b" = (c4CtxRunning, []))) ∧
    (c4CtxWithAlert.get_item "fp-pruned"
        = some ⟨"fp-pruned", "alert", [("alertname", "PodCrash")], "alertmanager"⟩ ∧
     ((processEnrichmentSelection c4Wf c4CtxWithAlert "wf-new-c").2
        = [RpcCall.start_workflow "HumanInLoopWorkflow" "wf-new-c",
           RpcCall.signal "wf-new-c" "start_execution"] ∧
      assocLookup
        (processEnrichmentSelection c4Wf c4CtxWithAlert "wf-new-c").1.enrichment_rca_workflows
        "wf-new-c"
        = some ⟨"wf-new-c", some "fp-pruned", "running", none,
                some ⟨c4Compact.workflow_id, c4Compact.result,
                      c4Compact.source_workflow_ids⟩⟩)) :=
  ⟨⟨rfl, C4_amended_enrichment_guard.1 c4Wf emptyLocalContext "wf-new-a" rfl⟩,
   ⟨rfl, C4_amended_enrichment_guard.2.1 c4Wf c4CtxRunning "wf-new-b"
      ⟨"wf-compact", [], "running", none⟩ rfl (by decide)⟩,
   ⟨rfl, C4_amended_enrichment_guard.2.2 c4Wf c4CtxWithAlert "wf-new-c" c4Compact
      "fp-pruned" ⟨"fp-pruned", "alert", [("alertname", "PodCrash")], "alertmanager"⟩
      rfl rfl rfl rfl rfl rfl⟩⟩

/-- C8: the RCA lifecycle scenario -- after importing the alert with
fingerprint `abc123` and taking the start-RCA action, the Local Context gains
an `RCA` record with `status = "running"` and that fingerprint (and the two
start RPCs are issued); when a later poll observes `state = completed`, the
orchestrator takes the completed path and the record becomes
`status = "completed"` with the reported `final_report` stored as its result. -/
theorem C8_rca_lifecycle :
    c8Request.workflow_type = some "RCA" ∧
    c8Request.alert_fingerprint = some "abc123" ∧
    assocLookup c8Created.1.rca_workflows "human-in-loop-20260101-120000"
      = some ⟨"human-in-loop-20260101-120000", some "abc123", "running", none⟩ ∧
    c8Created.2
      = [RpcCall.start_workflow "HumanInLoopWorkflow" "human-in-loop-20260101-120000",
         RpcCall.signal "human-in-loop-20260101-120000" "start_execution"] ∧
    interactive_loop_dispatch c8CompletedStatus.state = .handleCompleted ∧
    assocLookup c8Final.rca_workflows "human-in-loop-20260101-120000"
      = some ⟨"human-in-loop-20260101-120000", some "abc123", "completed",
              some ⟨"Root cause: OOMKilled"⟩⟩ :=
  ⟨rfl, rfl, rfl, rfl, rfl, rfl⟩

/-- C9: `/switch-context` resolution priority -- an exact `context_id` match
always wins; with no exact match the first case-insensitive name match in
list order wins; with neither, the first id-substring match wins; and when
nothing matches, an error is reported and the session (in particular its
current context) is unchanged. -/
theorem C9_switch_context_resolution :
    (∀ (contexts : List Context) (term : String),
        (∃ c ∈ contexts, exactIdMatch term c = true) →
        resolveContext contexts term = contexts.find? (exactIdMatch term))
    ∧ (∀ (contexts : List Context) (term : String),
        (∀ c ∈ contexts, exactIdMatch term c = false) →
        (∃ c ∈ contexts, nameCiMatch term c = true) →
        resolveContext contexts term = contexts.find? (nameCiMatch term))
    ∧ (∀ (contexts : List Context) (term : String),
        (∀ c ∈ contexts, exactIdMatch term c = false) →
        (∀ c ∈ contexts, nameCiMatch term c = false) →
        resolveContext contexts term = contexts.find? (idSubstrMatch term))
    ∧ (∀ (session : SessionState) (user_input : String),
        resolveContext session.contexts (pyStrip user_input) = none →
        (switch_context_execute session user_input).1 = session)
    ∧ (∀ (session : SessionState) (user_input : String),
        2 ≤ session.contexts.length →
        ¬(pyStrip user_input = "") →
        resolveContext session.contexts (pyStrip user_input) = none →
        switch_context_execute session user_input
          = (session, .notFound ("Context " ++ pyStrip user_input ++ " not found."))) := by
  refine ⟨?_, ?_, ?_, ?_, ?_⟩
  · intro contexts term h
    cases hfind : contexts.find? (exactIdMatch term) with
    | some d => simp [resolveContext, hfind]
    | none =>
        obtain ⟨c, hc, hm⟩ := h
        have := List.find?_eq_none.mp hfind c hc
        simp [hm] at this
  · intro contexts term h1 h2
    have hnone : contexts.find? (exactIdMatch term) = none :=
      List.find?_eq_none.mpr (fun c hc => by simp [h1 c hc])
    cases hfind : contexts.find? (nameCiMatch term) with
    | some d => simp [resolveContext, hnone, hfind]
    | none =>
        obtain ⟨c, hc, hm⟩ := h2
        have := List.find?_eq_none.mp hfind c hc
        simp [hm] at this
  · intro contexts term h1 h2
    have hn1 : contexts.find? (exactIdMatch term) = none :=
      List.find?_eq_none.mpr (fun c hc => by simp [h1 c hc])
    have hn2 : contexts.find? (nameCiMatch term) = none :=
      List.find?_eq_none.mpr (fun c hc => by simp [h2 c hc])
    simp [resolveContext, hn1, hn2]
  · intro session input h
    by_cases h0 : session.contexts.length = 0
    · simp [switch_context_execute, h0]
    · by_cases h1 : session.contexts.length = 1
      · simp [switch_context_execute, h0, h1]
      · by_cases h2 : pyStrip input = ""
        · simp [switch_context_execute, h0, h1, h2]
        · simp [switch_context_execute, h0, h1, h2, h]
  · intro session input hlen hne h
    have h0 : ¬(session.contexts.length = 0) := by omega
    have h1 : ¬(session.contexts.length = 1) := by omega
    simp [switch_context_execute, h0, h1, hne, h]

/-- Witness for C9 at concrete inputs: an exact-id hit, a name hit that beats
the substring rule with the first match winning, and a miss that leaves the
session unchanged. -/
theorem C9_switch_context_resolution_witness :
    (resolveContext c9Contexts "ctx-beta" = c9Contexts.find? (exactIdMatch "ctx-beta") ∧
     c9Contexts.find? (exactIdMatch "ctx-beta")
       = some ⟨"ctx-beta", some "prod", emptyLocalContext⟩) ∧
    (resolveContext c9Contexts "prod" = c9Contexts.find? (nameCiMatch "prod") ∧
     c9Contexts.find? (nameCiMatch "prod")
       = some ⟨"ctx-alpha", some "Prod", emptyLocalContext⟩) ∧
    (resolveContext c9Session.contexts (pyStrip "zzz") = none ∧
     (switch_context_execute c9Session "zzz").1 = c9Session ∧
     switch_context_execute c9Session "zzz"
       = (c9Session, .notFound ("Context " ++ pyStrip "zzz" ++ " not found."))) :=
  ⟨⟨C9_switch_context_resolution.1 c9Contexts "ctx-beta" (by decide), rfl⟩,
   ⟨C9_switch_context_resolution.2.1 c9Contexts "prod" (by decide) (by decide), rfl⟩,
   ⟨rfl,
    C9_switch_context_resolution.2.2.2.1 c9Session "zzz" rfl,
    C9_switch_context_resolution.2.2.2.2 c9Session "zzz" (by decide) (by decide) rfl⟩⟩

/-- C10: with a configured (non-empty) whitelist, an alert passes the
whitelist check iff its name is a member or some entry is a character-prefix
of its fingerprint; a whitelist containing the empty string therefore admits
every alert; and `filter_alerts` keeps exactly the alerts that pass the
blacklist check, the status check and the whitelist check together, so the
whitelist only ever decides among alerts that already passed the first two. -/
theorem C10_whitelist_semantics :
    (∀ (wl : List String) (alert_name fingerprint : String), wl ≠ [] →
        (is_whitelisted (AlertRegistry.ofWhitelist (some wl)) alert_name fingerprint
            = true ↔
          alert_name ∈ wl ∨ ∃ e ∈ wl, e.data <+: fingerprint.data))
    ∧ (∀ (wl : List String) (alert_name fingerprint : String),
        "" ∈ wl →
        is_whitelisted (AlertRegistry.ofWhitelist (some wl)) alert_name fingerprint
          = true)
    ∧ (∀ (p : AlertFilterParams) (a : AlertmanagerAlert),
        a ∈ filter_alerts p ↔
          a ∈ p.alerts ∧
          ¬(truthyList p.blacklist = true ∧
            dictGetD a.labels "alertname" "unknown" ∈ p.blacklist.getD []) ∧
          ¬(truthyStr p.status_filter = true ∧
            a.status_state ≠ p.status_filter.getD "") ∧
          is_whitelisted (AlertRegistry.ofWhitelist p.whitelist)
            (dictGetD a.labels "alertname" "unknown") a.fingerprint = true) := by
  have hiff : ∀ (wl : List String) (alert_name fingerprint : String), wl ≠ [] →
      (is_whitelisted (AlertRegistry.ofWhitelist (some wl)) alert_name fingerprint
          = true ↔
        alert_name ∈ wl ∨ ∃ e ∈ wl, e.data <+: fingerprint.data) := by
    intro wl n fp hne
    have hemp : ¬(wl.isEmpty = true) := by simp [hne]
    simp [is_whitelisted, AlertRegistry.ofWhitelist, hemp, pyStartswith,
          List.any_eq_true, List.isPrefixOf_iff_prefix]
  refine ⟨hiff, ?_, ?_⟩
  · intro wl n fp h
    have hne : wl ≠ [] := by
      intro e
      subst e
      simp at h
    rw [hiff wl n fp hne]
    exact Or.inr ⟨"", h, by rw [show ("" : String).data = [] from rfl]
                            exact List.nil_prefix⟩
  · intro p a
    have hk : ∀ reg, keepAlert p reg a = true ↔
        (¬(truthyList p.blacklist = true ∧
           dictGetD a.labels "alertname" "unknown" ∈ p.blacklist.getD []) ∧
         ¬(truthyStr p.status_filter = true ∧
           a.status_state ≠ p.status_filter.getD "") ∧
         is_whitelisted reg (dictGetD a.labels "alertname" "unknown") a.fingerprint
           = true) := by
      intro reg
      simp only [keepAlert]
      split_ifs with h1 h2
      · simp [h1]
      · simp [h1, h2]
      · simp [h1, h2]
    simp only [filter_alerts, List.mem_filter, hk]

/-- Witness for C10 at concrete inputs, including the spec section 8 scenario:
blacklist `["Watchdog"]`, whitelist unset, status `"firing"` keeps exactly the
firing `PodCrash` alert. -/
theorem C10_whitelist_semantics_witness :
    ((["PodCrash", ""] : List String) ≠ [] ∧
     (is_whitelisted (AlertRegistry.ofWhitelist (some ["PodCrash", ""])) "Other" "zzz"
         = true ↔
       "Other" ∈ (["PodCrash", ""] : List String) ∨
         ∃ e ∈ (["PodCrash", ""] : List String), e.data <+: ("zzz" : String).data)) ∧
    is_whitelisted (AlertRegistry.ofWhitelist (some ["PodCrash", ""])) "AnyAlert" "anyfp"
      = true ∧
    (c10PodCrashFiring ∈ filter_alerts c10Params ↔
      c10PodCrashFiring ∈ c10Params.alerts ∧
      ¬(truthyList c10Params.blacklist = true ∧
        dictGetD c10PodCrashFiring.labels "alertname" "unknown"
          ∈ c10Params.blacklist.getD []) ∧
      ¬(truthyStr c10Params.status_filter = true ∧
        c10PodCrashFiring.status_state ≠ c10Params.status_filter.getD "") ∧
      is_whitelisted (AlertRegistry.ofWhitelist c10Params.whitelist)
        (dictGetD c10PodCrashFiring.labels "alertname" "unknown")
        c10PodCrashFiring.fingerprint = true) ∧
    filter_alerts c10Params = [c10PodCrashFiring] :=
  ⟨⟨by decide,
    C10_whitelist_semantics.1 ["PodCrash", ""] "Other" "zzz" (by decide)⟩,
   C10_whitelist_semantics.2.1 ["PodCrash", ""] "AnyAlert" "anyfp" (by decide),
   C10_whitelist_semantics.2.2 c10Params c10PodCrashFiring,
   rfl⟩

end EinAgent
